import Mathlib

/-!
Verification of the Gumloop Fever order-sync script
(src/context/reference/gumloop-fever-sync.py) against its
natural-language specification.

The script is shallowly embedded: JSON values become the `Json` inductive,
Python builtins (truthiness, `str`, `int`, `json.dumps`, iteration,
attribute access) become total Lean functions or `Except`-valued functions
where Python would raise, and each stage of the pipeline becomes an
explicit function over an environment of network responses.
-/

/-- JSON-shaped Python values. Numbers are modelled as integers (the
claims never involve fractional values). Objects are association lists;
lookup takes the first match. -/
inductive Json where
  | null
  | bool (b : Bool)
  | num (n : Int)
  | str (s : String)
  | arr (elems : List Json)
  | obj (fields : List (String × Json))

/-- Python exception kinds relevant to the script. -/
inductive PyErr where
  | typeError
  | valueError
  | attrError
  | netError
deriving DecidableEq

/-- Python truthiness of a JSON-shaped value. -/
def pyTruthy : Json → Bool
  | .null => false
  | .bool b => b
  | .num n => n != 0
  | .str s => s != ""
  | .arr l => !l.isEmpty
  | .obj f => !f.isEmpty

/-- `cur in (None, "")`, the sentinel test used by the script. -/
def isNoneOrEmptyStr : Json → Bool
  | .null => true
  | .str s => s == ""
  | _ => false

/-- One character inside a Python string repr, for quote character `q`.
Control characters beyond the common escapes are left as-is (the script
never prints such strings). -/
def pyReprEscChar (q : Char) (c : Char) : String :=
  if c = '\\' then "\\\\"
  else if c = q then "\\" ++ String.singleton q
  else if c = '\n' then "\\n"
  else if c = '\r' then "\\r"
  else if c = '\t' then "\\t"
  else String.singleton c

/-- Join strings with a separator (kernel-reducible replacement for
`String.intercalate`). -/
def joinSep (sep : String) : List String → String
  | [] => ""
  | [x] => x
  | x :: y :: xs => x ++ sep ++ joinSep sep (y :: xs)

/-- Python `repr` of a string: single-quoted, except double-quoted when
the string contains a single quote and no double quote. -/
def pyStrQuote (s : String) : String :=
  let cs := s.toList
  let q : Char := if cs.contains '\'' && !(cs.contains '"') then '"' else '\''
  String.singleton q ++ joinSep "" (cs.map (pyReprEscChar q)) ++ String.singleton q

mutual

/-- Python `repr` on JSON-shaped values (used by `str` on containers). -/
def pyRepr : Json → String
  | .null => "None"
  | .bool b => cond b "True" "False"
  | .num n => toString n
  | .str s => pyStrQuote s
  | .arr l => "[" ++ joinSep ", " (pyReprList l) ++ "]"
  | .obj f => "\x7b" ++ joinSep ", " (pyReprFields f) ++ "\x7d"
termination_by structural v => v

def pyReprList : List Json → List String
  | [] => []
  | v :: vs => pyRepr v :: pyReprList vs
termination_by structural l => l

def pyReprFields : List (String × Json) → List String
  | [] => []
  | (k, v) :: kvs => (pyStrQuote k ++ ": " ++ pyRepr v) :: pyReprFields kvs
termination_by structural l => l

end

/-- Python `str` on JSON-shaped values. -/
def pyStr : Json → String
  | .str s => s
  | v => pyRepr v

/-- Association-list lookup with a default, modelling `dict.get(k, d)`.
Objects never hold duplicate keys in practice; lookup takes the first. -/
def dictGetD (fields : List (String × Json)) (k : String) (d : Json) : Json :=
  (List.lookup k fields).getD d

/-- `v.get(k, d)` on an arbitrary value: raises `AttributeError` unless
`v` is a dict. -/
def pyGetD (v : Json) (k : String) (d : Json) : Except PyErr Json :=
  match v with
  | .obj fields => .ok (dictGetD fields k d)
  | _ => .error .attrError

/-- Python `str.strip()` (ASCII whitespace). -/
def pyStrip (s : String) : String :=
  String.mk (((s.toList.dropWhile Char.isWhitespace).reverse.dropWhile
    Char.isWhitespace).reverse)

/-- Value of a nonempty all-digit character run, if it is one. -/
def digitsVal? (cs : List Char) : Option Nat :=
  if !cs.isEmpty && cs.all Char.isDigit then
    some (cs.foldl (fun a c => a * 10 + (c.toNat - 48)) 0)
  else none

/-- Python `int(v)`: identity on ints, 0/1 on bools, lenient parse of a
string (surrounding whitespace and an optional sign); `TypeError` on
None/lists/dicts, `ValueError` on non-numeric strings. -/
def pyInt : Json → Except PyErr Int
  | .num n => .ok n
  | .bool b => .ok (cond b 1 0)
  | .str s =>
      match (pyStrip s).toList with
      | '-' :: rest =>
          match digitsVal? rest with
          | some n => .ok (-(n : Int))
          | none => .error .valueError
      | '+' :: rest =>
          match digitsVal? rest with
          | some n => .ok (n : Int)
          | none => .error .valueError
      | cs =>
          match digitsVal? cs with
          | some n => .ok (n : Int)
          | none => .error .valueError
  | _ => .error .typeError

/-- Python iteration `for x in v`: lists yield elements, strings yield
one-character strings, dicts yield keys; other values raise `TypeError`. -/
def pyIter : Json → Except PyErr (List Json)
  | .arr l => .ok l
  | .str s => .ok (s.toList.map fun c => Json.str (String.singleton c))
  | .obj f => .ok (f.map fun kv => Json.str kv.1)
  | _ => .error .typeError

/-- The helper `_g(d, *ks)` of the script: walk `d` through the keys,
returning `""` as soon as the current value is not a dict; at the end,
`""` for `None` or `""`, else `str` of the value. Total by construction. -/
def _g (d : Json) : List String → String
  | [] => if isNoneOrEmptyStr d then "" else pyStr d
  | k :: rest =>
      match d with
      | .obj fields => _g (dictGetD fields k .null) rest
      | _ => ""

/-- Spec-side view of the same walk: the value reached through the keys,
or `none` when some value to be subscripted is not a keyed structure.
A missing key continues with `None`, as `dict.get` does. -/
def gWalk (d : Json) : List String → Option Json
  | [] => some d
  | k :: rest =>
      match d with
      | .obj fields => gWalk (dictGetD fields k .null) rest
      | _ => none

/-- Lowercase hex digit. -/
def hexDigit (n : Nat) : Char :=
  if n < 10 then Char.ofNat (48 + n) else Char.ofNat (87 + n)

/-- Four-digit lowercase hex, as in `\uXXXX` escapes. -/
def hex4 (n : Nat) : String :=
  String.mk [hexDigit (n / 4096 % 16), hexDigit (n / 256 % 16),
             hexDigit (n / 16 % 16), hexDigit (n % 16)]

/-- One character of a `json.dumps` string (default `ensure_ascii=True`):
the standard short escapes, `\u00xx` for other control characters, and
`\uXXXX` (with surrogate pairs) for non-ASCII. -/
def jsonEscChar (c : Char) : String :=
  if c = '"' then "\\\""
  else if c = '\\' then "\\\\"
  else if c = '\n' then "\\n"
  else if c = '\r' then "\\r"
  else if c = '\t' then "\\t"
  else if c.toNat = 8 then "\\b"
  else if c.toNat = 12 then "\\f"
  else if c.toNat < 32 then "\\u" ++ hex4 c.toNat
  else if c.toNat < 127 then String.singleton c
  else if c.toNat < 65536 then "\\u" ++ hex4 c.toNat
  else
    "\\u" ++ hex4 (55296 + (c.toNat - 65536) / 1024) ++
    "\\u" ++ hex4 (56320 + (c.toNat - 65536) % 1024)

/-- `json.dumps` of a string. -/
def jsonQuote (s : String) : String :=
  "\"" ++ joinSep "" (s.toList.map jsonEscChar) ++ "\""

mutual

/-- Python `json.dumps(v)` with default arguments: separators are
`", "` between items and `": "` between a key and its value. -/
def pyJsonDumps : Json → String
  | .null => "null"
  | .bool b => cond b "true" "false"
  | .num n => toString n
  | .str s => jsonQuote s
  | .arr l => "[" ++ joinSep ", " (pyJsonDumpsList l) ++ "]"
  | .obj f => "\x7b" ++ joinSep ", " (pyJsonDumpsFields f) ++ "\x7d"
termination_by structural v => v

def pyJsonDumpsList : List Json → List String
  | [] => []
  | v :: vs => pyJsonDumps v :: pyJsonDumpsList vs
termination_by structural l => l

def pyJsonDumpsFields : List (String × Json) → List String
  | [] => []
  | (k, v) :: kvs => (jsonQuote k ++ ": " ++ pyJsonDumps v) :: pyJsonDumpsFields kvs
termination_by structural l => l

end

/-! ## Partition resolution (poll stage, lines 158-164 of the script) -/

/-- `p.get("partition_num", p.get("partition", p.get("page",
p.get("number", 0))))`: the value under the first present of the four
keys, else `0`. Presence is what counts — a present key with value
`None` is used (and later fails `int`), not skipped. -/
def firstPartitionKey (fields : List (String × Json)) : Json :=
  (List.lookup "partition_num" fields).getD
    ((List.lookup "partition" fields).getD
      ((List.lookup "page" fields).getD
        ((List.lookup "number" fields).getD (Json.num 0))))

/-- One `partition_info` entry: keyed entries go through the four-key
chain, raw entries through `int` directly. -/
def resolveEntry (p : Json) : Except PyErr Int :=
  match p with
  | .obj fields => pyInt (firstPartitionKey fields)
  | _ => pyInt p

/-- Python `sorted(set(l))` on integers: distinct elements in ascending
order. -/
def sortedDedup (l : List Int) : List Int :=
  List.insertionSort (· ≤ ·) l.dedup

/-- Lines 158-164: map the entries of `partition_info` through
`resolveEntry`, keep the non-negative ones, dedupe and sort, and coerce
an empty result to `[0]` (the `or [0]`). Any `int` failure propagates
as the exception the enclosing poll stage catches. -/
def resolvePartitions (pinfo : Json) : Except PyErr (List Int) :=
  match pyIter pinfo with
  | .error e => .error e
  | .ok entries =>
      match entries.mapM resolveEntry with
      | .error e => .error e
      | .ok parts =>
          if (sortedDedup (parts.filter (fun x => decide (0 ≤ x)))).isEmpty then .ok [0]
          else .ok (sortedDedup (parts.filter (fun x => decide (0 ≤ x))))

/-! ## Poll loop (lines 151-172) -/

/-- A poll attempt that observed a response but no usable
`partition_info`: a 2xx JSON object whose `partition_info` is absent or
falsy. The loop sleeps and retries exactly on these attempts. -/
def attemptSeesNothing : Except PyErr Json → Bool
  | .ok (.obj fields) => !pyTruthy (dictGetD fields "partition_info" .null)
  | _ => false

/-- The `for _ in range(60)` poll loop, parameterised by the sequence of
responses. `ok none` is the timeout (loop exhausted, `parts` still
`None`); `ok (some parts)` is the break with resolved partitions;
`error` is an exception (network failure, non-dict body, or an `int`
failure inside resolution) that the stage catches. -/
def pollLoop (pollResp : Nat → Except PyErr Json) : Nat → Nat → Except PyErr (Option (List Int))
  | 0, _ => .ok none
  | fuel + 1, i =>
      match pollResp i with
      | .error e => .error e
      | .ok j =>
          match j with
          | .obj fields =>
              let pinfo := dictGetD fields "partition_info" .null
              if pyTruthy pinfo then
                match resolvePartitions pinfo with
                | .error e => .error e
                | .ok parts => .ok (some parts)
              else pollLoop pollResp fuel (i + 1)
          | _ => .error .attrError

/-- Up to 60 attempts starting at attempt 0. -/
def pollPartitions (pollResp : Nat → Except PyErr Json) : Except PyErr (Option (List Int)) :=
  pollLoop pollResp 60 0

/-! ## Output schema and flatten (lines 58-78 and 185-288) -/

/-- The column names, in the order the script declares them (lines
58-77) and appends to them (lines 191-285). -/
def variable_names : List String :=
  ["order_id", "parent_order_id", "order_created_date_utc", "order_updated_date_utc",
   "surcharge", "currency", "purchase_channel", "payment_method", "billing_zip_code",
   "assigned_seats", "buyer_id", "buyer_email", "buyer_first_name", "buyer_last_name",
   "buyer_date_of_birthday", "buyer_language", "buyer_marketing_preference",
   "purchase_city", "purchase_country_code", "purchase_region_code",
   "purchase_postal_code", "purchase_quality", "partner_id", "partner_name",
   "plan_id", "plan_name", "coupon_name", "coupon_code", "business_id", "business_name",
   "booking_questions", "item_id", "item_status", "item_created_date_utc",
   "item_modified_date_utc", "item_purchase_date_utc", "item_cancellation_date_utc",
   "item_cancellation_type", "item_discount", "item_surcharge", "item_unitary_price",
   "item_is_invite", "item_rating_value", "item_rating_comment", "owner_id",
   "owner_email", "owner_first_name", "owner_last_name", "owner_date_of_birthday",
   "owner_language", "owner_marketing_preference", "plan_code_id", "plan_code_barcode",
   "plan_code_created_date_utc", "plan_code_modified_date_utc",
   "plan_code_redeemed_date_utc", "plan_code_is_cancelled", "plan_code_is_validated",
   "session_id", "session_name", "session_start_date_utc", "session_end_date_utc",
   "session_first_purchasable_date_utc", "session_is_addon", "session_is_shop_product",
   "session_is_wait_list", "venue_name", "venue_city", "venue_country", "venue_timezone"]

/-- The `outputs` dict: one string list per column name. -/
def Outputs := String → List String

/-- `outputs = {k: [] for k in variable_names}`. -/
def emptyOutputs : Outputs := fun _ => []

/-- `outputs[k].append(v)`. -/
def updateCol (out : Outputs) (k v : String) : Outputs :=
  fun s => if s = k then out s ++ [v] else out s

/-- The `booking_questions` cell (lines 235-236): serialized with
`json.dumps` unless the raw value is `None`/absent/`""`. -/
def bookingQuestionsCell (fields : List (String × Json)) : String :=
  let bq := dictGetD fields "booking_questions" .null
  if isNoneOrEmptyStr bq then "" else pyJsonDumps bq

/-- The 70 cells appended for one (order, item) pair, in the order of
lines 191-285. `fields` are the fields of the order dict, `it` the
current item. -/
def rowCells (fields : List (String × Json)) (it : Json) : List (String × String) :=
  let o := Json.obj fields
  [("order_id", _g o ["id"]),
   ("parent_order_id", _g o ["parent_order_id"]),
   ("order_created_date_utc", _g o ["created_date_utc"]),
   ("order_updated_date_utc", _g o ["updated_date_utc"]),
   ("surcharge", _g o ["surcharge"]),
   ("currency", _g o ["currency"]),
   ("purchase_channel", _g o ["purchase_channel"]),
   ("payment_method", _g o ["payment_method"]),
   ("billing_zip_code", _g o ["billing_zip_code"]),
   ("assigned_seats", _g o ["assigned_seats"]),
   ("buyer_id", _g o ["buyer", "id"]),
   ("buyer_email", _g o ["buyer", "email"]),
   ("buyer_first_name", _g o ["buyer", "first_name"]),
   ("buyer_last_name", _g o ["buyer", "last_name"]),
   ("buyer_date_of_birthday", _g o ["buyer", "date_of_birthday"]),
   ("buyer_language", _g o ["buyer", "language"]),
   ("buyer_marketing_preference", _g o ["buyer", "marketing_preference"]),
   ("purchase_city", _g o ["purchase_location_source", "city_name"]),
   ("purchase_country_code", _g o ["purchase_location_source", "country_code"]),
   ("purchase_region_code", _g o ["purchase_location_source", "region_code"]),
   ("purchase_postal_code", _g o ["purchase_location_source", "postal_code"]),
   ("purchase_quality", _g o ["purchase_location_source", "quality"]),
   ("partner_id", _g o ["partner", "id"]),
   ("partner_name", _g o ["partner", "name"]),
   ("plan_id", _g o ["plan", "id"]),
   ("plan_name", _g o ["plan", "name"]),
   ("coupon_name", _g o ["coupon", "name"]),
   ("coupon_code", _g o ["coupon", "code"]),
   ("business_id", _g o ["business", "id"]),
   ("business_name", _g o ["business", "name"]),
   ("booking_questions", bookingQuestionsCell fields),
   ("item_id", _g it ["id"]),
   ("item_status", _g it ["status"]),
   ("item_created_date_utc", _g it ["created_date_utc"]),
   ("item_modified_date_utc", _g it ["modified_date_utc"]),
   ("item_purchase_date_utc", _g it ["purchase_date_utc"]),
   ("item_cancellation_date_utc", _g it ["cancellation_date_utc"]),
   ("item_cancellation_type", _g it ["cancellation_type"]),
   ("item_discount", _g it ["discount"]),
   ("item_surcharge", _g it ["surcharge"]),
   ("item_unitary_price", _g it ["unitary_price"]),
   ("item_is_invite", _g it ["is_invite"]),
   ("item_rating_value", _g it ["rating_value"]),
   ("item_rating_comment", _g it ["rating_comment"]),
   ("owner_id", _g it ["owner", "id"]),
   ("owner_email", _g it ["owner", "email"]),
   ("owner_first_name", _g it ["owner", "first_name"]),
   ("owner_last_name", _g it ["owner", "last_name"]),
   ("owner_date_of_birthday", _g it ["owner", "date_of_birthday"]),
   ("owner_language", _g it ["owner", "language"]),
   ("owner_marketing_preference", _g it ["owner", "marketing_preference"]),
   ("plan_code_id", _g it ["plan_code", "id"]),
   ("plan_code_barcode", _g it ["plan_code", "cd_barcode"]),
   ("plan_code_created_date_utc", _g it ["plan_code", "created_date_utc"]),
   ("plan_code_modified_date_utc", _g it ["plan_code", "modified_date_utc"]),
   ("plan_code_redeemed_date_utc", _g it ["plan_code", "redeemed_date_utc"]),
   ("plan_code_is_cancelled", _g it ["plan_code", "is_cancelled"]),
   ("plan_code_is_validated", _g it ["plan_code", "is_validated"]),
   ("session_id", _g it ["session", "id"]),
   ("session_name", _g it ["session", "name"]),
   ("session_start_date_utc", _g it ["session", "start_date_utc"]),
   ("session_end_date_utc", _g it ["session", "end_date_utc"]),
   ("session_first_purchasable_date_utc", _g it ["session", "first_purchasable_date_utc"]),
   ("session_is_addon", _g it ["session", "is_addon"]),
   ("session_is_shop_product", _g it ["session", "is_shop_product"]),
   ("session_is_wait_list", _g it ["session", "is_wait_list"]),
   ("venue_name", _g it ["session", "venue", "name"]),
   ("venue_city", _g it ["session", "venue", "city"]),
   ("venue_country", _g it ["session", "venue", "country"]),
   ("venue_timezone", _g it ["session", "venue", "timezone"])]

/-- Append the 70 cells of one row, in order. None of the cell
expressions can raise: `_g` is total and `json.dumps` succeeds on every
JSON-shaped value, so a row is always appended whole. -/
def appendRow (out : Outputs) (fields : List (String × Json)) (it : Json) : Outputs :=
  (rowCells fields it).foldl (fun acc kv => updateCol acc kv.1 kv.2) out

/-- `items = o.get("order_items") or [{}]` followed by `for it in items`:
a falsy value (absent, `None`, `[]`, `""`, `0`, `False`, `\x7b\x7d`)
becomes the one conceptual empty item; a truthy value is iterated, which
raises `TypeError` for a number or `True`. -/
def orderItemsE (fields : List (String × Json)) : Except PyErr (List Json) :=
  let raw := dictGetD fields "order_items" .null
  if pyTruthy raw then pyIter raw else .ok [Json.obj []]

/-- One iteration of the outer `for o in orders` loop: a non-dict order
raises at `o.get`, a non-iterable truthy `order_items` raises at the
inner `for`; both happen before any cell of the order is appended. -/
def processOrder (out : Outputs) : Json → Except PyErr Outputs
  | .obj fields =>
      match orderItemsE fields with
      | .error e => .error e
      | .ok items => .ok (items.foldl (fun acc it => appendRow acc fields it) out)
  | _ => .error .attrError

/-- The flatten loop with the containment of lines 186-288: the `try`
wraps the whole loop, so the first exception stops processing and the
rows appended so far are what the script goes on to return. -/
def flattenLoop (out : Outputs) : List Json → Outputs
  | [] => out
  | o :: rest =>
      match processOrder out o with
      | .ok out2 => flattenLoop out2 rest
      | .error _ => out

/-- Flatten starting from the empty table. -/
def flattenOutputs (orders : List Json) : Outputs :=
  flattenLoop emptyOutputs orders

/-- The number of rows the flatten loop completes: items of each order
up to (and excluding) the first order that raises. -/
def flattenCount : List Json → Nat
  | [] => 0
  | o :: rest =>
      match o with
      | .obj fields =>
          match orderItemsE fields with
          | .error _ => 0
          | .ok items => items.length + flattenCount rest
      | _ => 0

/-- Length of the order_items list of a well-formed order (0 when
absent or null). -/
def orderItemsCount (o : Json) : Nat :=
  match o with
  | .obj fields =>
      match dictGetD fields "order_items" .null with
      | .arr l => l.length
      | _ => 0
  | _ => 0

/-- An order as the data model describes it: a keyed record whose
`order_items` is absent, null, or a list. -/
def OrderLike (o : Json) : Prop :=
  ∃ fields, o = Json.obj fields ∧
    (List.lookup "order_items" fields = none ∨
     List.lookup "order_items" fields = some Json.null ∨
     ∃ l, List.lookup "order_items" fields = some (Json.arr l))

/-! ## The pipeline (auth, submit, poll, fetch, flatten; lines 105-311) -/

/-- The run parameters the script hard-codes (lines 34-41), kept
abstract so the stages can be stated for every value. -/
structure Config where
  bearer : String
  planIds : String
  dateField : String
  dateFrom : String
  dateTo : String

/-- The network, as the sequence of responses each request would get:
`error` is a raised exception (timeout or non-2xx via
`raise_for_status`), `ok j` a 2xx response with JSON body `j`. -/
structure Env where
  tokenResp : Except PyErr Json
  searchResp : Except PyErr Json
  pollResp : Nat → Except PyErr Json
  fetchResp : Int → Except PyErr Json

/-- Which stage a run stopped at. -/
inductive Failure where
  | auth
  | submit
  | poll
  | fetch
deriving DecidableEq

/-- `s.split(",")` (single-character separator). -/
def splitChar (sep : Char) : List Char → List (List Char)
  | [] => [[]]
  | c :: rest =>
      match splitChar sep rest with
      | [] => [[c]]
      | g :: gs => if c = sep then [] :: g :: gs else (c :: g) :: gs

/-- Line 129: `[int(x) for x in PLAN_IDS.split(",") if x.strip().isdigit()]`.
Entries whose stripped form is not a nonempty digit run are dropped
silently; `int(x)` of a kept entry is the digit value. -/
def parsePlanIds (s : String) : List Int :=
  ((splitChar ',' s.toList).map String.mk).filterMap fun x =>
    match digitsVal? (pyStrip x).toList with
    | some n => some (n : Int)
    | none => none

/-- Submit failures, named after the conditions of lines 128-148. -/
inductive SubmitErr where
  | noValidPlanIds
  | requestFailed
  | noSearchId
deriving DecidableEq

/-- The JSON body of the search request (lines 134-137): `plan_ids`
always, each date key only when its configured value is non-empty. -/
def submitBody (ids : List Int) (cfg : Config) : List (String × Json) :=
  [("plan_ids", Json.arr (ids.map Json.num))] ++
  (if cfg.dateField = "" then [] else [("date_field", Json.str cfg.dateField)]) ++
  (if cfg.dateFrom = "" then [] else [("date_from", Json.str cfg.dateFrom)]) ++
  (if cfg.dateTo = "" then [] else [("date_to", Json.str cfg.dateTo)])

/-- Lines 128-148: parse plan ids (failing when none are valid), then
read `search_id` from the response, failing when the request raised,
the body is not a dict, or `search_id` is absent or falsy. -/
def submitStage (cfg : Config) (searchResp : Except PyErr Json) : Except SubmitErr Json :=
  if (parsePlanIds cfg.planIds).isEmpty then .error .noValidPlanIds
  else
    match searchResp with
    | .error _ => .error .requestFailed
    | .ok (.obj fields) =>
        let sid := dictGetD fields "search_id" .null
        if pyTruthy sid then .ok sid else .error .noSearchId
    | .ok _ => .error .requestFailed

/-- Lines 106-125: use the stripped pre-issued bearer when non-empty,
else exchange credentials; fail when the request raised or the returned
`access_token` is absent or falsy. -/
def authStage (cfg : Config) (tokenResp : Except PyErr Json) : Except Unit String :=
  let t := pyStrip cfg.bearer
  if t = "" then
    match tokenResp with
    | .error _ => .error ()
    | .ok (.obj fields) =>
        let tok := dictGetD fields "access_token" (Json.str "")
        if pyTruthy tok then .ok (pyStr tok) else .error ()
    | .ok _ => .error ()
  else .ok t

/-- Lines 175-183: fetch each partition in list order, extract `data`
(default `[]`) and extend the accumulated orders; the first exception
aborts the stage. -/
def fetchAll (fetchResp : Int → Except PyErr Json) (parts : List Int) :
    Except PyErr (List Json) :=
  parts.foldlM (fun acc p => do
    let j ← fetchResp p
    let data ← pyGetD j "data" (Json.arr [])
    let elems ← pyIter data
    return acc ++ elems) []

/-- The four network stages in sequence, short-circuiting at the first
failure, producing the order list handed to flatten. -/
def pipelineCore (cfg : Config) (env : Env) : Except Failure (List Json) :=
  match authStage cfg env.tokenResp with
  | .error _ => .error .auth
  | .ok _ =>
      match submitStage cfg env.searchResp with
      | .error _ => .error .submit
      | .ok _ =>
          match pollPartitions env.pollResp with
          | .error _ => .error .poll
          | .ok none => .error .poll
          | .ok (some parts) =>
              match fetchAll env.fetchResp parts with
              | .error _ => .error .fetch
              | .ok orders => .ok orders

/-- The whole of `main`: every terminal failure returns the untouched
empty table via `_unpack_and_return`; success flattens the fetched
orders (flatten errors being contained inside `flattenOutputs`). No
exception escapes: this is a total function. -/
def pipeline (cfg : Config) (env : Env) : Outputs :=
  match pipelineCore cfg env with
  | .error _ => emptyOutputs
  | .ok orders => flattenOutputs orders

/-! ## Helper lemmas -/

theorem variable_names_nodup : variable_names.Nodup := by decide

theorem variable_names_length : variable_names.length = 70 := by decide

theorem rowCells_keys (fields : List (String × Json)) (it : Json) :
    (rowCells fields it).map Prod.fst = variable_names := rfl

theorem foldl_updateCol_length (cells : List (String × String)) (out : Outputs)
    (name : String) :
    ((cells.foldl (fun acc kv => updateCol acc kv.1 kv.2) out) name).length =
      (out name).length + ((cells.map Prod.fst).count name) := by
  induction cells generalizing out with
  | nil => simp
  | cons c cs ih =>
      simp only [List.foldl_cons, List.map_cons, List.count_cons]
      rw [ih]
      by_cases h : name = c.1
      · subst h
        simp [updateCol]
        omega
      · simp [updateCol, h, Ne.symm h]

theorem appendRow_length (out : Outputs) (fields : List (String × Json)) (it : Json)
    (name : String) (h : name ∈ variable_names) :
    ((appendRow out fields it) name).length = (out name).length + 1 := by
  unfold appendRow
  rw [foldl_updateCol_length, rowCells_keys,
    List.count_eq_one_of_mem variable_names_nodup h]

theorem foldl_appendRow_length (items : List Json) (out : Outputs)
    (fields : List (String × Json)) (name : String) (h : name ∈ variable_names) :
    ((items.foldl (fun acc it => appendRow acc fields it) out) name).length =
      (out name).length + items.length := by
  induction items generalizing out with
  | nil => simp
  | cons it its ih =>
      simp only [List.foldl_cons, List.length_cons]
      rw [ih, appendRow_length _ _ _ _ h]
      omega

theorem flattenLoop_length (orders : List Json) (out : Outputs) (name : String)
    (h : name ∈ variable_names) :
    ((flattenLoop out orders) name).length = (out name).length + flattenCount orders := by
  induction orders generalizing out with
  | nil => simp [flattenLoop, flattenCount]
  | cons o rest ih =>
      cases o
      case obj fields =>
        cases horder : orderItemsE fields with
        | error e => simp [flattenLoop, processOrder, flattenCount, horder]
        | ok items =>
            simp only [flattenLoop, processOrder, flattenCount, horder]
            rw [ih, foldl_appendRow_length _ _ _ _ h]
            omega
      all_goals simp [flattenLoop, processOrder, flattenCount]

theorem orderItemsE_of_orderLike (fields : List (String × Json))
    (h : List.lookup "order_items" fields = none ∨
         List.lookup "order_items" fields = some Json.null ∨
         ∃ l, List.lookup "order_items" fields = some (Json.arr l)) :
    ∃ items, orderItemsE fields = .ok items ∧
      items.length = max 1 (orderItemsCount (Json.obj fields)) := by
  rcases h with h | h | ⟨l, h⟩
  · exact ⟨[Json.obj []], by simp [orderItemsE, dictGetD, h, pyTruthy],
      by simp [orderItemsCount, dictGetD, h]⟩
  · exact ⟨[Json.obj []], by simp [orderItemsE, dictGetD, h, pyTruthy],
      by simp [orderItemsCount, dictGetD, h]⟩
  · cases l with
    | nil => exact ⟨[Json.obj []], by simp [orderItemsE, dictGetD, h, pyTruthy],
        by simp [orderItemsCount, dictGetD, h]⟩
    | cons a l' =>
        refine ⟨a :: l', by simp [orderItemsE, dictGetD, h, pyTruthy, pyIter], ?_⟩
        simp [orderItemsCount, dictGetD, h]

theorem flattenCount_eq_sum (orders : List Json) (h : ∀ o ∈ orders, OrderLike o) :
    flattenCount orders = (orders.map fun o => max 1 (orderItemsCount o)).sum := by
  induction orders with
  | nil => simp [flattenCount]
  | cons o rest ih =>
      obtain ⟨fields, rfl, hcase⟩ := h o (List.mem_cons_self o rest)
      obtain ⟨items, hE, hlen⟩ := orderItemsE_of_orderLike fields hcase
      simp only [flattenCount, hE, List.map_cons, List.sum_cons]
      rw [hlen, ih (fun o ho => h o (List.mem_cons_of_mem _ ho))]

/-! ### Poll loop lemmas -/

theorem pollLoop_all_nothing (pollResp : Nat → Except PyErr Json) :
    ∀ (fuel i : Nat), (∀ d, d < fuel → attemptSeesNothing (pollResp (i + d)) = true) →
      pollLoop pollResp fuel i = .ok none := by
  intro fuel
  induction fuel with
  | zero => intro i _; rfl
  | succ f ih =>
      intro i h
      have h0 : attemptSeesNothing (pollResp i) = true := by
        have := h 0 (Nat.succ_pos f)
        simpa using this
      cases hr : pollResp i with
      | error e => rw [hr] at h0; simp [attemptSeesNothing] at h0
      | ok j =>
          cases j
          case obj fields =>
            rw [hr] at h0
            simp only [attemptSeesNothing, Bool.not_eq_true'] at h0
            simp only [pollLoop, hr, h0, if_neg]
            exact ih (i + 1) (fun d hd => by
              have := h (d + 1) (Nat.succ_lt_succ hd)
              simpa [Nat.add_assoc, Nat.add_comm 1 d] using this)
          all_goals (rw [hr] at h0; simp [attemptSeesNothing] at h0)

theorem pollLoop_hit (pollResp : Nat → Except PyErr Json)
    (fields : List (String × Json)) :
    ∀ (k fuel i : Nat), k < fuel →
      (∀ d, d < k → attemptSeesNothing (pollResp (i + d)) = true) →
      pollResp (i + k) = .ok (Json.obj fields) →
      pyTruthy (dictGetD fields "partition_info" .null) = true →
      pollLoop pollResp fuel i =
        (match resolvePartitions (dictGetD fields "partition_info" .null) with
         | .error e => .error e
         | .ok parts => .ok (some parts)) := by
  intro k
  induction k with
  | zero =>
      intro fuel i hk _ hresp htruthy
      cases fuel with
      | zero => omega
      | succ f =>
          rw [Nat.add_zero] at hresp
          simp only [pollLoop, hresp, htruthy, if_pos]
  | succ k ih =>
      intro fuel i hk hprior hresp htruthy
      cases fuel with
      | zero => omega
      | succ f =>
          have h0 : attemptSeesNothing (pollResp i) = true := by
            have := hprior 0 (Nat.succ_pos k)
            simpa using this
          cases hr : pollResp i with
          | error e => rw [hr] at h0; simp [attemptSeesNothing] at h0
          | ok j =>
              cases j
              case obj fields0 =>
                rw [hr] at h0
                simp only [attemptSeesNothing, Bool.not_eq_true'] at h0
                simp only [pollLoop, hr, h0, if_neg]
                exact ih f (i + 1) (Nat.lt_of_succ_lt_succ hk)
                  (fun d hd => by
                    have := hprior (d + 1) (Nat.succ_lt_succ hd)
                    simpa [Nat.add_assoc, Nat.add_comm 1 d] using this)
                  (by rw [show i + 1 + k = i + (k + 1) by omega]; exact hresp)
                  htruthy
              all_goals (rw [hr] at h0; simp [attemptSeesNothing] at h0)

/-! ## Claims -/

/-- Claim C1: for every list of orders as the data model has them (keyed
records whose order_items is absent, null, or a list), the number of
flat rows produced — the length of every output column — equals the sum
over the orders of max(1, number of items): an itemless order
contributes one row, an order with n items n rows. -/
theorem claim_C1_row_count_invariant (orders : List Json)
    (h : ∀ o ∈ orders, OrderLike o) :
    ∀ name ∈ variable_names, ((flattenOutputs orders) name).length =
      (orders.map fun o => max 1 (orderItemsCount o)).sum := by
  intro name hn
  unfold flattenOutputs
  rw [flattenLoop_length _ _ _ hn, flattenCount_eq_sum orders h]
  simp [emptyOutputs]

/-- Witness for C1 at one itemless order: one row. -/
theorem claim_C1_witness :
    ((flattenOutputs [Json.obj []]) "order_id").length =
      (([Json.obj []]).map fun o => max 1 (orderItemsCount o)).sum :=
  claim_C1_row_count_invariant [Json.obj []]
    (by intro o ho
        rw [List.mem_singleton] at ho
        subst ho
        exact ⟨[], rfl, Or.inl rfl⟩)
    "order_id" (by decide)

/-- Claim C2: the field accessor is a total function (it is defined for
every JSON-shaped root and path, so it never raises); it returns the
empty string when the walk meets a non-keyed intermediate value or when
the final value is absent (the walk yields None), null, or the empty
string, and otherwise the str conversion of the final value. -/
theorem claim_C2_accessor_totality :
    ∀ (root : Json) (path : List String),
      (gWalk root path = none → _g root path = "") ∧
      (∀ v, gWalk root path = some v →
        _g root path = if isNoneOrEmptyStr v then "" else pyStr v) := by
  intro root path
  induction path generalizing root with
  | nil =>
      constructor
      · intro h
        simp [gWalk] at h
      · intro v hv
        simp only [gWalk, Option.some.injEq] at hv
        subst hv
        rfl
  | cons k ks ih =>
      cases root
      case obj fields =>
        constructor
        · intro h
          simp only [gWalk] at h
          simp only [_g]
          exact (ih _).1 h
        · intro v hv
          simp only [gWalk] at hv
          simp only [_g]
          exact (ih _).2 v hv
      all_goals exact ⟨fun _ => rfl, fun v hv => by simp [gWalk] at hv⟩

/-- Witness for C2: a one-step walk to an integer leaf. -/
theorem claim_C2_witness :
    _g (Json.obj [("a", Json.num 5)]) ["a"] = "5" :=
  ((claim_C2_accessor_totality (Json.obj [("a", Json.num 5)]) ["a"]).2
    (Json.num 5) rfl).trans rfl

/-- Claim C4 counterexample: with a first order giving one row, a second
order whose truthy order_items is not iterable, and a third valid order,
the flatten loop stops at the second order — the third order contributes
no row, refuting that processing continues with the remaining orders. -/
theorem claim_C4_counterexample :
    flattenOutputs
      [Json.obj [("id", Json.str "O1"), ("order_items", Json.arr [Json.obj []])],
       Json.obj [("order_items", Json.bool true)],
       Json.obj [("id", Json.str "O3"), ("order_items", Json.arr [Json.obj []])]]
      "order_id" = ["O1"] ∧
    ((flattenOutputs
      [Json.obj [("id", Json.str "O1"), ("order_items", Json.arr [Json.obj []])],
       Json.obj [("order_items", Json.bool true)],
       Json.obj [("id", Json.str "O3"), ("order_items", Json.arr [Json.obj []])]]
      "order_id") == ["O1", "O3"]) = false :=
  ⟨rfl, rfl⟩

/-- Claim C4 (amended): the try of the script wraps the whole flatten
loop, so a processing error while projecting one order keeps every row
appended for earlier orders and items — that table is what the script
returns — but the remaining orders are not processed; the error itself
is contained and does not escape. -/
theorem claim_C4_flatten_error_stops_loop (pre : List Json) (bad : Json)
    (rest : List Json)
    (hpre : ∀ o ∈ pre, ∀ out, ∃ out2, processOrder out o = .ok out2)
    (hbad : ∀ out, ∃ e, processOrder out bad = .error e) :
    flattenOutputs (pre ++ bad :: rest) = flattenOutputs pre := by
  unfold flattenOutputs
  have main : ∀ (pre2 : List Json),
      (∀ o ∈ pre2, ∀ out, ∃ out2, processOrder out o = .ok out2) →
      ∀ out, flattenLoop out (pre2 ++ bad :: rest) = flattenLoop out pre2 := by
    intro pre2
    induction pre2 with
    | nil =>
        intro _ out
        obtain ⟨e, he⟩ := hbad out
        simp [flattenLoop, he]
    | cons o pre3 ih =>
        intro hp out
        obtain ⟨out2, h2⟩ := hp o (List.mem_cons_self o pre3) out
        simp only [List.cons_append, flattenLoop, h2]
        exact ih (fun o ho out => hp o (List.mem_cons_of_mem _ ho) out) out2
  exact main pre hpre emptyOutputs

/-- Witness for C4: one good order followed by one raising order. -/
theorem claim_C4_witness :
    flattenOutputs
      [Json.obj [("id", Json.str "O1"), ("order_items", Json.arr [Json.obj []])],
       Json.obj [("order_items", Json.bool true)]] =
    flattenOutputs
      [Json.obj [("id", Json.str "O1"), ("order_items", Json.arr [Json.obj []])]] :=
  claim_C4_flatten_error_stops_loop
    [Json.obj [("id", Json.str "O1"), ("order_items", Json.arr [Json.obj []])]]
    (Json.obj [("order_items", Json.bool true)]) []
    (by intro o ho out
        rw [List.mem_singleton] at ho
        subst ho
        exact ⟨_, rfl⟩)
    (fun out => ⟨.typeError, rfl⟩)

/-- Claim C10 counterexample: a flatten iteration appends one cell per
column, which is 70 cells, not 69. -/
theorem claim_C10_counterexample :
    (rowCells [] (Json.obj [])).length = 70 ∧
    ((rowCells [] (Json.obj [])).length == 69) = false :=
  ⟨rfl, rfl⟩

/-- Claim C10 (amended): each completed (order, item) iteration appends
exactly one cell to each of the 70 column lists, and the possible
exceptions (non-dict order, non-iterable truthy order_items) are raised
before any cell of the failing row is appended, so every column always
has length flattenCount — the columns stay aligned even when an error
cut the run short. -/
theorem claim_C10_column_alignment :
    (∀ (orders : List Json), ∀ name ∈ variable_names,
      ((flattenOutputs orders) name).length = flattenCount orders) ∧
    variable_names.length = 70 := by
  refine ⟨?_, variable_names_length⟩
  intro orders name hn
  unfold flattenOutputs
  rw [flattenLoop_length _ _ _ hn]
  simp [emptyOutputs]

/-- Witness for C10 on a run whose second order raises: the last column
has the same length as the count of completed rows. -/
theorem claim_C10_witness :
    ((flattenOutputs
      [Json.obj [("id", Json.str "O1"), ("order_items", Json.arr [Json.obj []])],
       Json.obj [("order_items", Json.bool true)],
       Json.obj [("id", Json.str "O3"), ("order_items", Json.arr [Json.obj []])]])
      "venue_timezone").length =
    flattenCount
      [Json.obj [("id", Json.str "O1"), ("order_items", Json.arr [Json.obj []])],
       Json.obj [("order_items", Json.bool true)],
       Json.obj [("id", Json.str "O3"), ("order_items", Json.arr [Json.obj []])]] :=
  claim_C10_column_alignment.1 _ "venue_timezone" (by decide)

/-- Claim C3: partition resolution takes raw entries as-is, reads keyed
entries from the first present of partition_num, partition, page,
number (defaulting to 0 when none is present), filters to non-negative,
dedupes and sorts ascending, coercing an empty result to the single
partition 0; the example of the spec resolves to [0, 2, 5]. -/
theorem claim_C3_partition_resolution :
    resolvePartitions (Json.arr [Json.obj [("page", Json.num 2)],
        Json.obj [("partition_num", Json.num 0)], Json.num 5, Json.num 0]) =
      .ok [0, 2, 5] ∧
    resolveEntry (Json.obj [("number", Json.num 7), ("partition", Json.num 3)]) = .ok 3 ∧
    resolveEntry (Json.obj [("foo", Json.num 9)]) = .ok 0 ∧
    resolveEntry (Json.num 5) = .ok 5 ∧
    ∀ (pinfo : Json) (parts : List Int), resolvePartitions pinfo = .ok parts →
      parts ≠ [] ∧ parts.Sorted (· ≤ ·) ∧ parts.Nodup ∧ ∀ x ∈ parts, 0 ≤ x := by
  refine ⟨rfl, rfl, rfl, rfl, ?_⟩
  intro pinfo parts h
  unfold resolvePartitions at h
  cases hIter : pyIter pinfo with
  | error e => rw [hIter] at h; simp at h
  | ok entries =>
      rw [hIter] at h
      dsimp only at h
      cases hMap : entries.mapM resolveEntry with
      | error e => rw [hMap] at h; simp at h
      | ok vals =>
          rw [hMap] at h
          dsimp only at h
          by_cases hE : (sortedDedup (vals.filter fun x => decide (0 ≤ x))).isEmpty = true
          · rw [if_pos hE] at h
            injection h with h2
            subst h2
            refine ⟨by simp, List.sorted_singleton _, List.nodup_singleton _, ?_⟩
            intro x hx
            rw [List.mem_singleton] at hx
            subst hx
            exact le_refl 0
          · rw [if_neg hE] at h
            injection h with h2
            subst h2
            refine ⟨?_, ?_, ?_, ?_⟩
            · intro hnil
              exact hE (by rw [hnil]; rfl)
            · exact List.sorted_insertionSort _ _
            · exact ((List.perm_insertionSort _ _).nodup_iff).mpr (List.nodup_dedup _)
            · intro x hx
              have hx2 : x ∈ (vals.filter fun x => decide (0 ≤ x)).dedup :=
                ((List.perm_insertionSort _ _).mem_iff).mp hx
              exact of_decide_eq_true (List.mem_filter.mp (List.mem_dedup.mp hx2)).2

/-- Witness for C3: the resolved example really is ascending and
duplicate-free, via the general component of the theorem. -/
theorem claim_C3_witness :
    ([0, 2, 5] : List Int).Sorted (· ≤ ·) ∧ ([0, 2, 5] : List Int).Nodup :=
  ⟨(claim_C3_partition_resolution.2.2.2.2 (Json.arr [Json.obj [("page", Json.num 2)],
      Json.obj [("partition_num", Json.num 0)], Json.num 5, Json.num 0]) [0, 2, 5]
      rfl).2.1,
   (claim_C3_partition_resolution.2.2.2.2 (Json.arr [Json.obj [("page", Json.num 2)],
      Json.obj [("partition_num", Json.num 0)], Json.num 5, Json.num 0]) [0, 2, 5]
      rfl).2.2.1⟩

/-- The booking_questions cell of a row, read off the fold of the 70
updates. -/
theorem appendRow_booking_questions (out : Outputs) (fields : List (String × Json))
    (it : Json) :
    (appendRow out fields it) "booking_questions" =
      out "booking_questions" ++ [bookingQuestionsCell fields] := rfl

/-- Claim C5 counterexample: the script serializes with the default
json.dumps separators, so booking_questions [{"q":"age"}] lands in the
row as the text with a space after the colon, not the compact text the
claim names. -/
theorem claim_C5_counterexample :
    flattenOutputs
      [Json.obj [("booking_questions", Json.arr [Json.obj [("q", Json.str "age")]])]]
      "booking_questions" = ["[\x7b\"q\": \"age\"\x7d]"] ∧
    ((flattenOutputs
      [Json.obj [("booking_questions", Json.arr [Json.obj [("q", Json.str "age")]])]]
      "booking_questions") == ["[\x7b\"q\":\"age\"\x7d]"]) = false :=
  ⟨rfl, rfl⟩

/-- Claim C5 (amended): only None, absent, and the empty string map to
the empty cell; every other value — empty lists and objects included —
is serialized by json.dumps with its default separators (a comma-space
between items, a colon-space after each key). -/
theorem claim_C5_booking_questions :
    (flattenOutputs
       [Json.obj [("booking_questions", Json.arr [Json.obj [("q", Json.str "age")]])]]
       "booking_questions" = ["[\x7b\"q\": \"age\"\x7d]"]) ∧
    (flattenOutputs [Json.obj [("booking_questions", Json.null)]]
       "booking_questions" = [""]) ∧
    (flattenOutputs [Json.obj []] "booking_questions" = [""]) ∧
    (flattenOutputs [Json.obj [("booking_questions", Json.str "")]]
       "booking_questions" = [""]) ∧
    (flattenOutputs [Json.obj [("booking_questions", Json.arr [])]]
       "booking_questions" = ["[]"]) ∧
    ∀ (fields : List (String × Json)) (v : Json),
      List.lookup "order_items" fields = none →
      List.lookup "booking_questions" fields = some v →
      flattenOutputs [Json.obj fields] "booking_questions" =
        [if isNoneOrEmptyStr v then "" else pyJsonDumps v] := by
  refine ⟨rfl, rfl, rfl, rfl, rfl, ?_⟩
  intro fields v hitems hbq
  have hE : orderItemsE fields = .ok [Json.obj []] := by
    simp [orderItemsE, dictGetD, hitems, pyTruthy]
  simp only [flattenOutputs, flattenLoop, processOrder, hE, List.foldl_cons,
    List.foldl_nil]
  rw [appendRow_booking_questions]
  simp [emptyOutputs, bookingQuestionsCell, dictGetD, hbq]

/-- Witness for C5: a numeric booking_questions value serializes to its
decimal text. -/
theorem claim_C5_witness :
    flattenOutputs [Json.obj [("booking_questions", Json.num 3)]]
      "booking_questions" = ["3"] :=
  (claim_C5_booking_questions.2.2.2.2.2 [("booking_questions", Json.num 3)]
    (Json.num 3) rfl rfl).trans rfl

/-- Claim C6 counterexample: the very first attempt observes a non-empty
partition_info, yet polling does not end successfully — the entry
\x7b"partition_num": null\x7d makes int raise, so the stage ends in the
error path instead. -/
theorem claim_C6_counterexample :
    pollPartitions (fun _ => .ok (Json.obj [("partition_info",
      Json.arr [Json.obj [("partition_num", Json.null)]])])) = .error .typeError :=
  rfl

/-- Claim C6 (amended): when no attempt among the 60 sees a truthy
partition_info, polling ends in the timeout (and the pipeline returns
the empty table without consulting the fetch responses); the first
attempt that sees a truthy partition_info ends polling — successfully
with the resolved partitions when every entry converts, and with the
conversion error otherwise. -/
theorem claim_C6_poll_timeout_and_first_hit :
    (∀ (cfg : Config) (tr sr : Except PyErr Json) (pr : Nat → Except PyErr Json)
        (fr fr2 : Int → Except PyErr Json),
      (∀ i, i < 60 → attemptSeesNothing (pr i) = true) →
        pollPartitions pr = .ok none ∧
        pipeline cfg ⟨tr, sr, pr, fr⟩ = emptyOutputs ∧
        pipeline cfg ⟨tr, sr, pr, fr⟩ = pipeline cfg ⟨tr, sr, pr, fr2⟩) ∧
    (∀ (pr : Nat → Except PyErr Json) (k : Nat) (fields : List (String × Json))
        (parts : List Int),
      k < 60 → (∀ i, i < k → attemptSeesNothing (pr i) = true) →
      pr k = .ok (Json.obj fields) →
      pyTruthy (dictGetD fields "partition_info" .null) = true →
      resolvePartitions (dictGetD fields "partition_info" .null) = .ok parts →
      pollPartitions pr = .ok (some parts)) ∧
    (∀ (pr : Nat → Except PyErr Json) (k : Nat) (fields : List (String × Json))
        (e : PyErr),
      k < 60 → (∀ i, i < k → attemptSeesNothing (pr i) = true) →
      pr k = .ok (Json.obj fields) →
      pyTruthy (dictGetD fields "partition_info" .null) = true →
      resolvePartitions (dictGetD fields "partition_info" .null) = .error e →
      pollPartitions pr = .error e) := by
  refine ⟨?_, ?_, ?_⟩
  · intro cfg tr sr pr fr fr2 h
    have hp : pollPartitions pr = .ok none :=
      pollLoop_all_nothing pr 60 0 (fun d hd => by simpa using h d hd)
    have hpipe : ∀ (fr0 : Int → Except PyErr Json),
        pipeline cfg ⟨tr, sr, pr, fr0⟩ = emptyOutputs := by
      intro fr0
      unfold pipeline pipelineCore
      cases hA : authStage cfg tr with
      | error u => simp [hA]
      | ok t =>
          cases hS : submitStage cfg sr with
          | error u => simp [hA, hS]
          | ok s => simp [hA, hS, hp]
    exact ⟨hp, hpipe fr, (hpipe fr).trans (hpipe fr2).symm⟩
  · intro pr k fields parts hk hprior hresp htruthy hres
    have hhit := pollLoop_hit pr fields k 60 0 hk
      (fun d hd => by simpa using hprior d hd) (by simpa using hresp) htruthy
    unfold pollPartitions
    rw [hhit, hres]
  · intro pr k fields e hk hprior hresp htruthy hres
    have hhit := pollLoop_hit pr fields k 60 0 hk
      (fun d hd => by simpa using hprior d hd) (by simpa using hresp) htruthy
    unfold pollPartitions
    rw [hhit, hres]

/-- Witness for C6: an all-quiet poll sequence times out; a first-attempt
hit with partition 5 succeeds at once. -/
theorem claim_C6_witness :
    pollPartitions (fun _ => .ok (Json.obj [])) = .ok none ∧
    pollPartitions (fun _ => .ok (Json.obj [("partition_info",
      Json.arr [Json.num 5])])) = .ok (some [5]) :=
  ⟨(claim_C6_poll_timeout_and_first_hit.1 ⟨"x", "", "", "", ""⟩ (.error .netError)
      (.error .netError) (fun _ => .ok (Json.obj [])) (fun _ => .error .netError)
      (fun _ => .error .netError) (fun _ _ => rfl)).1,
   claim_C6_poll_timeout_and_first_hit.2.1 _ 0 [("partition_info",
      Json.arr [Json.num 5])] [5] (by decide)
      (fun i hi => absurd hi (Nat.not_lt_zero i)) rfl rfl rfl⟩

/-- Claim C7 counterexample: a terminal failure does return the fully
empty table, but the schema has 70 named columns, not 69. -/
theorem claim_C7_counterexample :
    pipeline ⟨"x", "", "", "", ""⟩
      ⟨.error .netError, .error .netError, fun _ => .error .netError,
       fun _ => .error .netError⟩ = emptyOutputs ∧
    variable_names.length = 70 ∧ (variable_names.length == 69) = false :=
  ⟨rfl, rfl, rfl⟩

/-- Claim C7 (amended): whenever any stage of the pipeline stops at a
terminal failure, the result is the untouched initial table: all 70
named columns present, each holding zero rows; the embedding is a total
function, so no exception escapes. -/
theorem claim_C7_empty_table_on_failure (cfg : Config) (env : Env) (f : Failure)
    (h : pipelineCore cfg env = .error f) :
    pipeline cfg env = emptyOutputs ∧
    (∀ name ∈ variable_names, pipeline cfg env name = []) ∧
    variable_names.length = 70 := by
  have hp : pipeline cfg env = emptyOutputs := by
    unfold pipeline
    rw [h]
  exact ⟨hp, fun name _ => by rw [hp]; rfl, variable_names_length⟩

/-- Witness for C7 at a concrete submit failure (no valid plan ids). -/
theorem claim_C7_witness :
    pipeline ⟨"tok", "", "", "", ""⟩
      ⟨.error .netError, .ok (Json.obj []), fun _ => .error .netError,
       fun _ => .error .netError⟩ = emptyOutputs ∧
    pipeline ⟨"tok", "", "", "", ""⟩
      ⟨.error .netError, .ok (Json.obj []), fun _ => .error .netError,
       fun _ => .error .netError⟩ "order_id" = [] ∧
    variable_names.length = 70 :=
  ⟨(claim_C7_empty_table_on_failure ⟨"tok", "", "", "", ""⟩
      ⟨.error .netError, .ok (Json.obj []), fun _ => .error .netError,
       fun _ => .error .netError⟩ .submit rfl).1,
   (claim_C7_empty_table_on_failure ⟨"tok", "", "", "", ""⟩
      ⟨.error .netError, .ok (Json.obj []), fun _ => .error .netError,
       fun _ => .error .netError⟩ .submit rfl).2.1 "order_id" (by decide),
   (claim_C7_empty_table_on_failure ⟨"tok", "", "", "", ""⟩
      ⟨.error .netError, .ok (Json.obj []), fun _ => .error .netError,
       fun _ => .error .netError⟩ .submit rfl).2.2⟩

/-- Claim C8: submit drops non-digit plan-id entries silently (the
concrete parse shows it), fails with the no-valid-plan-ids error exactly
when no digit entry remains, builds a body holding plan_ids always and
each date key exactly when its value is non-empty, and fails when the
response carries no search_id. -/
theorem claim_C8_submit :
    (parsePlanIds "12,ab, 7 ,," = [12, 7]) ∧
    (∀ (cfg : Config) (r : Except PyErr Json),
      submitStage cfg r = .error .noValidPlanIds ↔ parsePlanIds cfg.planIds = []) ∧
    (∀ (s : String), parsePlanIds s = [] ↔
      ∀ x ∈ (splitChar ',' s.toList).map String.mk,
        digitsVal? (pyStrip x).toList = none) ∧
    (∀ (ids : List Int) (cfg : Config),
      List.lookup "plan_ids" (submitBody ids cfg) = some (Json.arr (ids.map Json.num)) ∧
      List.lookup "date_field" (submitBody ids cfg) =
        (if cfg.dateField = "" then none else some (Json.str cfg.dateField)) ∧
      List.lookup "date_from" (submitBody ids cfg) =
        (if cfg.dateFrom = "" then none else some (Json.str cfg.dateFrom)) ∧
      List.lookup "date_to" (submitBody ids cfg) =
        (if cfg.dateTo = "" then none else some (Json.str cfg.dateTo))) ∧
    (∀ (cfg : Config) (fields : List (String × Json)),
      parsePlanIds cfg.planIds ≠ [] → List.lookup "search_id" fields = none →
      submitStage cfg (.ok (.obj fields)) = .error .noSearchId) := by
  refine ⟨rfl, ?_, ?_, ?_, ?_⟩
  · intro cfg r
    by_cases hids : parsePlanIds cfg.planIds = []
    · simp [submitStage, hids]
    · have hne : (parsePlanIds cfg.planIds).isEmpty = false := by
        simpa [List.isEmpty_iff] using hids
      rcases r with e | j
      · simp [submitStage, hne, hids]
      · rcases j with _ | b | n | s2 | l | fields
        · simp [submitStage, hne, hids]
        · simp [submitStage, hne, hids]
        · simp [submitStage, hne, hids]
        · simp [submitStage, hne, hids]
        · simp [submitStage, hne, hids]
        · by_cases ht : pyTruthy (dictGetD fields "search_id" .null) = true
          · simp [submitStage, hne, hids, ht]
          · simp [submitStage, hne, hids, ht]
  · intro s
    unfold parsePlanIds
    rw [List.filterMap_eq_nil_iff]
    constructor
    · intro h x hx
      have hfx := h x hx
      cases hd : digitsVal? (pyStrip x).toList with
      | none => rfl
      | some n => rw [hd] at hfx; simp at hfx
    · intro h x hx
      rw [h x hx]
  · intro ids cfg
    refine ⟨?_, ?_, ?_, ?_⟩ <;>
      (by_cases h1 : cfg.dateField = "" <;> by_cases h2 : cfg.dateFrom = "" <;>
        by_cases h3 : cfg.dateTo = "" <;>
        simp [submitBody, List.lookup, h1, h2, h3])
  · intro cfg fields hne hlookup
    have hE : (parsePlanIds cfg.planIds).isEmpty = false := by
      simpa [List.isEmpty_iff] using hne
    simp [submitStage, hE, dictGetD, hlookup, pyTruthy]

/-- Witness for C8: an all-invalid plan-id string fails with the
dedicated error, a missing search_id fails with its error, and a valid
body carries the parsed plan ids. -/
theorem claim_C8_witness :
    submitStage ⟨"x", "ab", "", "", ""⟩ (.ok (Json.obj [])) = .error .noValidPlanIds ∧
    submitStage ⟨"x", "1", "", "", ""⟩ (.ok (Json.obj [])) = .error .noSearchId ∧
    List.lookup "plan_ids" (submitBody [1] ⟨"x", "1", "", "", ""⟩) =
      some (Json.arr [Json.num 1]) :=
  ⟨(claim_C8_submit.2.1 ⟨"x", "ab", "", "", ""⟩ (.ok (Json.obj []))).mpr rfl,
   claim_C8_submit.2.2.2.2 ⟨"x", "1", "", "", ""⟩ [] (by decide) rfl,
   (claim_C8_submit.2.2.2.1 [1] ⟨"x", "1", "", "", ""⟩).1⟩

/-- Claim C9: a keyed entry whose first present partition key holds a
value int cannot convert (partition_num: null) raises inside the
conversion — the resolver yields the TypeError rather than defaulting
the entry to 0 — and the whole polling stage then fails through the
error path: the pipeline returns the empty table. -/
theorem claim_C9_malformed_partition_entry :
    resolveEntry (Json.obj [("partition_num", Json.null)]) = .error .typeError ∧
    resolvePartitions (Json.arr [Json.obj [("partition_num", Json.null)]]) =
      .error .typeError ∧
    pipelineCore ⟨"tok", "1", "", "", ""⟩
      ⟨.error .netError, .ok (Json.obj [("search_id", Json.str "s")]),
       fun _ => .ok (Json.obj [("partition_info",
         Json.arr [Json.obj [("partition_num", Json.null)]])]),
       fun _ => .error .netError⟩ = .error .poll ∧
    pipeline ⟨"tok", "1", "", "", ""⟩
      ⟨.error .netError, .ok (Json.obj [("search_id", Json.str "s")]),
       fun _ => .ok (Json.obj [("partition_info",
         Json.arr [Json.obj [("partition_num", Json.null)]])]),
       fun _ => .error .netError⟩ = emptyOutputs :=
  ⟨rfl, rfl, rfl, rfl⟩
